import Mathlib

/-!
Verification development for the CrisisNet repository.

The repository under scrutiny ships the React frontend of a crisis-analytics
system (pages `Home`, `GraphView`, `Metrics`, `Insights`, `LiveDashboard`,
`GeoMap` and the API client).  The Python analytics backend (graph builder,
metrics engine, community detector, alert synthesizer, live pipeline) is not
part of the sources; where a property depends on it, the corresponding
definition is modelled from the specification and marked as such in its doc
comment.  All frontend definitions below are direct shallow embeddings of the
JavaScript in the repository; JavaScript numbers are modelled as rationals,
possibly-missing object fields as `Option`, and strings as Lean strings.
-/

set_option maxRecDepth 10000

namespace CrisisNet

/-- One streamed live event as the dashboard stores it.  Its payload is
irrelevant to the buffer behaviour; an id and an unconstrained text field
stand in for the full record. -/
structure WsEvent where
  eid : Nat
  txt : String
deriving DecidableEq, Repr

/-- The rolling live summary read from status and stream messages.  The
dashboard only stores and displays it, so its fields are kept abstract. -/
structure LiveSummary where
  total_events : Nat
  avg_sentiment : Int
deriving DecidableEq, Repr

/-- A message received on the `/ws/live` WebSocket, after JSON parsing.
The handler in `LiveDashboard.connectWebSocket` reads `type`, `events`
(defaulted to `[]` by `payload.events || []`), `event`, `summary`
(`payload.summary || null`, modelled by `Option`) and `running`. -/
structure WsMessage where
  mtype : String
  events : List WsEvent
  event : WsEvent
  summary : Option LiveSummary
  running : Bool
deriving DecidableEq, Repr

/-- The slice of `LiveDashboard` React state touched by the WebSocket
handler: `events`, `summary`, `running`. -/
structure LiveState where
  events : List WsEvent
  summary : Option LiveSummary
  running : Bool
deriving DecidableEq, Repr

/-- Initial React state: `useState([])`, `useState(null)`, `useState(false)`. -/
def initialLiveState : LiveState := { events := [], summary := none, running := false }

/-- JavaScript `Array.prototype.slice(-n)` on a list: keep the last `n`
elements (the whole list when it is shorter than `n`). -/
def sliceLast (n : Nat) (l : List α) : List α := l.drop (l.length - n)

/-- The live buffer capacity used by `LiveDashboard`: `.slice(-200)`. -/
def BUFFER_CAP : Nat := 200

/-- Shallow embedding of the `ws.onmessage` handler in
`LiveDashboard.connectWebSocket`:
a `"bootstrap"` message replaces events, summary and running;
an `"event"` message appends `payload.event`, trims to the last 200 with
`.slice(-200)` and updates summary and running; any other message type
leaves the state unchanged. -/
def wsOnMessage (s : LiveState) (m : WsMessage) : LiveState :=
  if m.mtype = "bootstrap" then
    { events := m.events, summary := m.summary, running := m.running }
  else if m.mtype = "event" then
    { events := sliceLast BUFFER_CAP (s.events ++ [m.event]),
      summary := m.summary, running := m.running }
  else s

lemma sliceLast_length_le (n : Nat) (l : List α) : (sliceLast n l).length ≤ n := by
  unfold sliceLast
  rw [List.length_drop]
  omega

lemma sliceLast_of_length_le (n : Nat) (l : List α) (h : l.length ≤ n) :
    sliceLast n l = l := by
  unfold sliceLast
  rw [Nat.sub_eq_zero_of_le h, List.drop_zero]

lemma wsOnMessage_event_length_le (s : LiveState) (m : WsMessage)
    (hm : m.mtype = "event") :
    (wsOnMessage s m).events.length ≤ BUFFER_CAP := by
  unfold wsOnMessage
  rcases eq_or_ne m.mtype "bootstrap" with hb | hb
  · rw [hb] at hm; simp at hm
  · simp only [if_neg hb, if_pos hm]
    exact sliceLast_length_le _ _

lemma foldl_event_length_le (msgs : List WsMessage) :
    ∀ s : LiveState, (∀ m ∈ msgs, m.mtype = "event") → s.events.length ≤ BUFFER_CAP →
      (msgs.foldl wsOnMessage s).events.length ≤ BUFFER_CAP := by
  induction msgs with
  | nil => intro s _ hs; simpa using hs
  | cons m rest ih =>
      intro s hall hs
      simp only [List.foldl_cons]
      exact ih _ (fun x hx => hall x (List.mem_cons_of_mem _ hx))
        (wsOnMessage_event_length_le s m (hall m (List.mem_cons_self _ _)))

lemma sliceLast_append_singleton_of_full (l : List α) (e : α)
    (h : l.length = BUFFER_CAP) :
    sliceLast BUFFER_CAP (l ++ [e]) = l.tail ++ [e] := by
  unfold sliceLast
  rw [List.length_append, List.length_singleton, h]
  have hcap : BUFFER_CAP + 1 - BUFFER_CAP = 1 := by omega
  have hl : 1 ≤ l.length := by rw [h]; decide
  rw [hcap, List.drop_append_of_le_length hl, List.drop_one]

/-- C1: starting from the empty dashboard buffer, after any sequence of
received `"event"` messages the events list has length at most 200, and a
new event arriving at a full buffer of 200 evicts exactly the oldest
(front) event while appending the new one at the back. -/
theorem live_buffer_capacity_fifo (msgs : List WsMessage)
    (hall : ∀ m ∈ msgs, m.mtype = "event") :
    (msgs.foldl wsOnMessage initialLiveState).events.length ≤ 200 ∧
    ∀ (s : LiveState) (m : WsMessage), m.mtype = "event" → s.events.length = 200 →
      (wsOnMessage s m).events = s.events.tail ++ [m.event] := by
  constructor
  · exact foldl_event_length_le msgs initialLiveState hall (by simp [initialLiveState])
  · intro s m hm hlen
    unfold wsOnMessage
    rcases eq_or_ne m.mtype "bootstrap" with hb | hb
    · rw [hb] at hm; simp at hm
    · simp only [if_neg hb, if_pos hm]
      exact sliceLast_append_singleton_of_full s.events m.event hlen

/-- Concrete instantiation of `live_buffer_capacity_fifo`. -/
theorem live_buffer_capacity_fifo_spot :
    (([{ mtype := "event", events := [], event := ⟨1, "a"⟩, summary := none,
         running := true }] :
        List WsMessage).foldl wsOnMessage initialLiveState).events.length ≤ 200 ∧
    (wsOnMessage
        { events := List.replicate 200 (⟨0, "x"⟩ : WsEvent), summary := none,
          running := true }
        { mtype := "event", events := [], event := ⟨7, "y"⟩, summary := none,
          running := true }).events =
      (List.replicate 200 (⟨0, "x"⟩ : WsEvent)).tail ++ [⟨7, "y"⟩] := by
  have h := live_buffer_capacity_fifo
    [{ mtype := "event", events := [], event := ⟨1, "a"⟩, summary := none,
       running := true }]
    (by intro m hm; simp at hm; rw [hm])
  exact ⟨h.1, h.2 _ _ rfl (by simp)⟩

/-- C2: the WebSocket handler processes exactly the two spec-named message
shapes: a `"bootstrap"` message replaces the events list, the summary and
the running flag wholesale from the message fields; an `"event"` message
appends exactly the one event carried by the message (trimmed to the last
200) and updates summary and running; a message of any other type leaves
events, summary and running unchanged. -/
theorem ws_two_message_shapes (s : LiveState) (m : WsMessage) :
    (m.mtype = "bootstrap" →
      wsOnMessage s m =
        { events := m.events, summary := m.summary, running := m.running }) ∧
    (m.mtype = "event" →
      (wsOnMessage s m).summary = m.summary ∧
      (wsOnMessage s m).running = m.running ∧
      (wsOnMessage s m).events = sliceLast 200 (s.events ++ [m.event]) ∧
      (s.events.length < 200 → (wsOnMessage s m).events = s.events ++ [m.event])) ∧
    (m.mtype ≠ "bootstrap" → m.mtype ≠ "event" → wsOnMessage s m = s) := by
  refine ⟨fun hb => ?_, fun he => ?_, fun hb he => ?_⟩
  · unfold wsOnMessage
    rw [if_pos hb]
  · have hb : m.mtype ≠ "bootstrap" := by rw [he]; decide
    unfold wsOnMessage
    rw [if_neg hb, if_pos he]
    refine ⟨rfl, rfl, rfl, fun hlt => ?_⟩
    exact sliceLast_of_length_le _ _ (by
      simp only [List.length_append, List.length_singleton, BUFFER_CAP]
      omega)
  · unfold wsOnMessage
    rw [if_neg hb, if_neg he]

/-- Concrete instantiation of `ws_two_message_shapes` on all three shapes. -/
theorem ws_two_message_shapes_spot :
    wsOnMessage initialLiveState
        { mtype := "bootstrap", events := [⟨3, "b"⟩], event := ⟨0, ""⟩,
          summary := some ⟨1, 0⟩, running := true } =
      { events := [⟨3, "b"⟩], summary := some ⟨1, 0⟩, running := true } ∧
    (wsOnMessage { events := [⟨3, "b"⟩], summary := none, running := true }
        { mtype := "event", events := [], event := ⟨4, "c"⟩, summary := some ⟨2, 1⟩,
          running := false }).events = [⟨3, "b"⟩] ++ [⟨4, "c"⟩] ∧
    wsOnMessage { events := [⟨3, "b"⟩], summary := none, running := true }
        { mtype := "ping", events := [], event := ⟨0, ""⟩, summary := none,
          running := false } =
      { events := [⟨3, "b"⟩], summary := none, running := true } := by
  refine ⟨(ws_two_message_shapes _ _).1 rfl, ?_, (ws_two_message_shapes _ _).2.2 (by decide) (by decide)⟩
  exact ((ws_two_message_shapes
    { events := [⟨3, "b"⟩], summary := none, running := true }
    { mtype := "event", events := [], event := ⟨4, "c"⟩, summary := some ⟨2, 1⟩,
      running := false }).2.1 rfl).2.2.2 (by decide)

/-- An ingested record: id, keyword, location, text, binary label, optional
timestamp (modelled as a day number). -/
structure Record where
  rid : Nat
  keyword : String
  location : String
  text : String
  target : Bool
  timestamp : Option Nat
deriving DecidableEq, Repr

/-- A dataset is the list of accepted records of one ingestion. -/
abbrev Dataset := List Record

/-- One edge of the analysis graph as serialized to the frontend:
`{source, target, weight, type}`.  The weight field may be absent in the
JSON the frontend reads, hence `Option`. -/
structure GraphEdge where
  source : Nat
  target : Nat
  weight : Option ℚ
  type : String
deriving DecidableEq, Repr

/-- The analysis graph as serialized to the frontend: node ids and edges. -/
structure Graph where
  nodes : List Nat
  edges : List GraphEdge
deriving DecidableEq, Repr

/-- Degree of a node: count of incident edges, type-agnostic. -/
def degree (g : Graph) (v : Nat) : Nat :=
  (g.edges.filter (fun e => e.source == v || e.target == v)).length

/-- Modelled from the spec: the Similarity Graph Builder (backend, absent
from src) creates a `shared_keyword` edge between any two records with
identical non-empty keyword; this stands in for the full builder so that
the analysis operation has substance. -/
def buildGraph (rs : Dataset) : Graph :=
  { nodes := rs.map (·.rid),
    edges :=
      (rs.flatMap (fun a => rs.map (fun b => (a, b)))).filterMap (fun p =>
        if p.1.rid < p.2.rid ∧ p.1.keyword = p.2.keyword ∧ p.1.keyword ≠ "" then
          some { source := p.1.rid, target := p.2.rid, weight := some 1,
                 type := "shared_keyword" }
        else none) }

/-- Errors of the batch analysis path named by the spec. -/
inductive AnalyzeError where
  | NoDatasetError
deriving DecidableEq, Repr

/-- Modelled from the spec: running analysis before any dataset is ingested
fails with `NoDatasetError`; with a dataset present it produces the graph. -/
def runAnalysis (ds : Option Dataset) : Except AnalyzeError Graph :=
  match ds with
  | none => .error .NoDatasetError
  | some rs => .ok (buildGraph rs)

/-- The upload statistics the Home page stores after a successful upload. -/
structure UploadStats where
  total_rows : Nat
  disaster_tweets : Nat
  non_disaster_tweets : Nat
  unique_keywords : Nat
deriving DecidableEq, Repr

/-- Shallow embedding of `Home.handleAnalyze`: given the `uploadStats`
state (null before any successful upload), return whether the analyze API
operation is invoked and which error message is set.  When `uploadStats`
is null the handler returns early with the error and never calls
`analyze()`. -/
def handleAnalyze (uploadStats : Option UploadStats) : Bool × Option String :=
  match uploadStats with
  | none => (false, some "Please upload a file first")
  | some _ => (true, none)

/-- C8: analysis before ingestion fails with `NoDatasetError`, and on the
Home page a null `uploadStats` makes the analyze action return early with
the error message `Please upload a file first` instead of calling the
analyze operation; with stats present the operation is invoked. -/
theorem analyze_requires_dataset :
    runAnalysis none = .error .NoDatasetError ∧
    handleAnalyze none = (false, some "Please upload a file first") ∧
    ∀ stats : UploadStats, handleAnalyze (some stats) = (true, none) := by
  exact ⟨rfl, rfl, fun _ => rfl⟩

/-- The live pipeline state machine of the spec: `idle → running → idle`. -/
inductive LiveMode where
  | idle
  | running
deriving DecidableEq, Repr

/-- Boolean view of the pipeline mode. -/
def LiveMode.isRunning : LiveMode → Bool
  | .idle => false
  | .running => true

/-- The live pipeline with its mode, the external collaborator's
configured flag and the last rolling summary. -/
structure LivePipeline where
  mode : LiveMode
  configured : Bool
  summary : Option LiveSummary
deriving DecidableEq, Repr

/-- Errors of the live interface named by the spec. -/
inductive LiveError where
  | ConfigurationError
deriving DecidableEq, Repr

/-- Modelled from the spec: the Live Ingestion Pipeline (backend, absent
from src) enters `running` on a start request only if the external
streaming collaborator reports itself configured; a start while not
configured fails with `ConfigurationError`. -/
def liveStart (p : LivePipeline) : Except LiveError LivePipeline :=
  if p.configured then Except.ok { p with mode := LiveMode.running }
  else Except.error LiveError.ConfigurationError

/-- The pipeline state after a start request: unchanged when the request
fails. -/
def liveStartResult (p : LivePipeline) : LivePipeline :=
  ((liveStart p).toOption).getD p

/-- The `{running, configured, summary}` triple of the live status
operation. -/
structure LiveStatus where
  running : Bool
  configured : Bool
  summary : Option LiveSummary
deriving DecidableEq, Repr

/-- Modelled from the spec: the status operation returns the
`{running, configured, summary}` triple. -/
def liveStatusOf (p : LivePipeline) : LiveStatus :=
  { running := p.mode.isRunning, configured := p.configured, summary := p.summary }

/-- Shallow embedding of the Start control in `LiveDashboard`:
`disabled={!configured || running}`. -/
def startDisabled (configured running : Bool) : Bool := !configured || running

/-- The Start control is enabled iff it is not disabled. -/
def startEnabled (configured running : Bool) : Bool := !(startDisabled configured running)

/-- C9: a live start request while the external source is not configured
fails with `ConfigurationError` and leaves the pipeline state (in
particular an idle mode) unchanged; the dashboard enables the Start
control exactly when `configured` is true and `running` is false; and the
status operation returns the running/configured/summary triple the
dashboard reads. -/
theorem live_start_requires_configuration (p : LivePipeline) :
    (p.configured = false →
      liveStart p = Except.error LiveError.ConfigurationError ∧
      liveStartResult p = p ∧
      (p.mode = LiveMode.idle → (liveStartResult p).mode = LiveMode.idle)) ∧
    (∀ c r : Bool, startEnabled c r = (c && !r)) ∧
    liveStatusOf p =
      { running := p.mode.isRunning, configured := p.configured, summary := p.summary } := by
  refine ⟨fun hc => ?_, fun c r => by cases c <;> cases r <;> rfl, rfl⟩
  have hs : liveStart p = Except.error LiveError.ConfigurationError := by
    unfold liveStart
    rw [hc]
    simp
  refine ⟨hs, ?_, ?_⟩
  · unfold liveStartResult
    rw [hs]
    rfl
  · intro hm
    unfold liveStartResult
    rw [hs]
    exact hm

/-- Concrete instantiation of `live_start_requires_configuration` at an
idle, unconfigured pipeline. -/
theorem live_start_requires_configuration_spot :
    liveStart { mode := LiveMode.idle, configured := false, summary := none } =
      Except.error LiveError.ConfigurationError ∧
    (liveStartResult { mode := LiveMode.idle, configured := false, summary := none }).mode =
      LiveMode.idle ∧
    startEnabled false false = false := by
  have h := live_start_requires_configuration
    { mode := LiveMode.idle, configured := false, summary := none }
  exact ⟨(h.1 rfl).1, (h.1 rfl).2.2 rfl, h.2.1 false false⟩

/-- Modelled from the spec: the Metrics Engine (backend, absent from src)
computes degree centrality as the degree normalized by `n - 1` for graphs
with more than one node, and `0` for a single-node graph. -/
def degreeCentrality (g : Graph) (v : Nat) : ℚ :=
  if g.nodes.length ≤ 1 then 0
  else (degree g v : ℚ) / ((g.nodes.length : ℚ) - 1)

/-- C3: for every analyzed graph with `n` nodes, each node's degree
centrality equals its degree divided by `n - 1` when `n > 1`, and equals
`0` when `n = 1`. -/
theorem degree_centrality_normalized (g : Graph) (v : Nat) :
    (1 < g.nodes.length →
      degreeCentrality g v = (degree g v : ℚ) / ((g.nodes.length : ℚ) - 1)) ∧
    (g.nodes.length = 1 → degreeCentrality g v = 0) := by
  constructor
  · intro h
    unfold degreeCentrality
    rw [if_neg (by omega)]
  · intro h
    unfold degreeCentrality
    rw [if_pos (by omega)]

/-- Concrete instantiation of `degree_centrality_normalized`: a two-node
graph with one edge gives centrality `1 / 1`, and a one-node graph gives
`0`. -/
theorem degree_centrality_normalized_spot :
    degreeCentrality
        { nodes := [0, 1],
          edges := [{ source := 0, target := 1, weight := some 1,
                      type := "shared_keyword" }] } 0 =
      (degree { nodes := [0, 1],
                edges := [{ source := 0, target := 1, weight := some 1,
                            type := "shared_keyword" }] } 0 : ℚ) / ((2 : ℚ) - 1) ∧
    degreeCentrality { nodes := [5], edges := [] } 5 = 0 := by
  constructor
  · exact (degree_centrality_normalized _ 0).1 (by decide)
  · exact (degree_centrality_normalized _ 5).2 (by decide)

/-- The three edge-type checkboxes of `GraphView`, all initially true. -/
structure EdgeFilters where
  similarity : Bool
  shared_keyword : Bool
  shared_location : Bool
deriving DecidableEq, Repr

/-- Shallow embedding of `Object.entries(edgeFilters).filter(enabled)`
`.map(type)` in `GraphView.filteredEdges`: the list of enabled edge type
names, in object-key order. -/
def activeTypes (f : EdgeFilters) : List String :=
  (if f.similarity then ["similarity"] else []) ++
  (if f.shared_keyword then ["shared_keyword"] else []) ++
  (if f.shared_location then ["shared_location"] else [])

/-- Shallow embedding of `GraphView.filteredEdges`: keep the edges whose
type is among the active types and whose weight (`edge.weight || 0`,
missing weight read as 0) is at least the minimum-weight slider value. -/
def filteredEdges (edges : List GraphEdge) (f : EdgeFilters) (minWeight : ℚ) :
    List GraphEdge :=
  edges.filter (fun e =>
    (activeTypes f).contains e.type && decide (minWeight ≤ e.weight.getD 0))

/-- C10: the filtered edge list contains exactly the edges whose type is
among the enabled edge types and whose weight (0 when missing) is at
least the minimum-weight slider value; in particular, when all three
types are enabled and the minimum weight is 0, every edge of the graph
(whose types are the three data-model types and whose weights are
nonnegative) is kept. -/
theorem filtered_edges_characterized (edges : List GraphEdge) (f : EdgeFilters)
    (minWeight : ℚ) :
    (∀ e : GraphEdge, e ∈ filteredEdges edges f minWeight ↔
      e ∈ edges ∧ e.type ∈ activeTypes f ∧ minWeight ≤ e.weight.getD 0) ∧
    ((∀ e ∈ edges, e.type ∈ ["similarity", "shared_keyword", "shared_location"]) →
      (∀ e ∈ edges, 0 ≤ e.weight.getD 0) →
      filteredEdges edges { similarity := true, shared_keyword := true,
                            shared_location := true } 0 = edges) := by
  constructor
  · intro e
    unfold filteredEdges
    rw [List.mem_filter]
    simp [List.elem_iff]
  · intro htypes hw
    unfold filteredEdges
    apply List.filter_eq_self.mpr
    intro e he
    have ht := htypes e he
    simp only [activeTypes, if_pos] at *
    simp [List.elem_iff]
    exact ⟨by simpa using ht, hw e he⟩

/-- Concrete instantiation of `filtered_edges_characterized`: a mixed
three-edge graph is kept whole by the all-enabled, zero-threshold filter,
and a particular edge is in the filtered list. -/
theorem filtered_edges_characterized_spot :
    (({ source := 0, target := 1, weight := some (1/2), type := "similarity" } :
        GraphEdge) ∈
      filteredEdges
        [{ source := 0, target := 1, weight := some (1/2), type := "similarity" },
         { source := 1, target := 2, weight := none, type := "shared_location" }]
        { similarity := true, shared_keyword := false, shared_location := true }
        (1/4) ↔
      (({ source := 0, target := 1, weight := some (1/2), type := "similarity" } :
          GraphEdge) ∈
        [{ source := 0, target := 1, weight := some (1/2), type := "similarity" },
         { source := 1, target := 2, weight := none, type := "shared_location" }] ∧
       ("similarity" :
          String) ∈ activeTypes { similarity := true, shared_keyword := false,
                                  shared_location := true } ∧
       (1/4 : ℚ) ≤ (some (1/2 : ℚ)).getD 0)) ∧
    filteredEdges
        [{ source := 0, target := 1, weight := some (1/2), type := "similarity" },
         { source := 1, target := 2, weight := none, type := "shared_location" },
         { source := 0, target := 2, weight := some 1, type := "shared_keyword" }]
        { similarity := true, shared_keyword := true, shared_location := true } 0 =
      [{ source := 0, target := 1, weight := some (1/2), type := "similarity" },
       { source := 1, target := 2, weight := none, type := "shared_location" },
       { source := 0, target := 2, weight := some 1, type := "shared_keyword" }] := by
  constructor
  · exact (filtered_edges_characterized _ _ _).1 _
  · exact (filtered_edges_characterized
      [{ source := 0, target := 1, weight := some (1/2), type := "similarity" },
       { source := 1, target := 2, weight := none, type := "shared_location" },
       { source := 0, target := 2, weight := some 1, type := "shared_keyword" }]
      { similarity := true, shared_keyword := true, shared_location := true }
      0).2 (by decide) (by intro e he; fin_cases he <;> norm_num)

/-- A graph node as `GraphView.renderGraph` reads it, restricted to the
fields the claims touch: the id and the community, which may be absent
from the JSON (`undefined`), modelled by `none`. -/
structure GNode where
  nid : Nat
  community : Option Int
deriving DecidableEq, Repr

/-- JavaScript `[...new Set(l)]`: deduplicate keeping first occurrences. -/
def jsSetDedup (l : List (Option Int)) : List (Option Int) :=
  l.foldl (fun acc x => if x ∈ acc then acc else acc ++ [x]) []

/-- Shallow embedding of
`[...new Set(graphData.nodes.map(n => n.community))].filter(c => c !== -1)`
in `renderGraph`: the deduplicated community values, with `-1` (and only
`-1`) removed.  A missing community (`undefined`) survives the filter. -/
def communitiesOf (nodes : List GNode) : List (Option Int) :=
  (jsSetDedup (nodes.map (·.community))).filter (fun c => decide (c ≠ some (-1)))

/-- The ten community palette colors of `renderGraph`. -/
def communityColors : List String :=
  ["#1E3A8A", "#06B6D4", "#DC2626", "#10B981", "#F59E0B",
   "#8B5CF6", "#EC4899", "#14B8A6", "#F97316", "#6366F1"]

/-- The sentinel gray of unassigned nodes. -/
def GRAY : String := "#94A3B8"

/-- Shallow embedding of the node `background-color` style function in
`renderGraph`: `-1` or missing community gives the sentinel gray,
otherwise the palette color at the community's index in
`communitiesOf`, modulo the palette length. -/
def nodeBackgroundColor (nodes : List GNode) (community : Option Int) : String :=
  if community = some (-1) ∨ community = none then GRAY
  else
    (communityColors.get?
      ((communitiesOf nodes).indexOf community % communityColors.length)).getD ""

/-- JavaScript template-string rendering of a possibly-undefined integer
field: `undefined` prints as the string `undefined`. -/
def jsDisplay : Option Int → String
  | none => "undefined"
  | some k => toString k

/-- Shallow embedding of the node-detail line
`Community: (data.community !== -1 ? data.community : 'N/A')` in the
`tap` handler of `renderGraph`: only the exact value `-1` is replaced by
`N/A`; any other value, a missing one included, is displayed as is. -/
def nodeDetailCommunity (community : Option Int) : String :=
  if community ≠ some (-1) then jsDisplay community else "N/A"

/-- Modelled from the spec: the Community Detector (backend, absent from
src) produces a total function from node id to community id, `-1`
reserved for explicitly unassigned nodes. -/
def communityAssignment (a : Nat → Int) (v : Nat) : Int := a v

/-- C4 counterexample: a node whose community field is missing is *not*
treated as the claim states: it is displayed as `undefined` (not `N/A`)
in the node detail view, and it is kept in the community palette list,
since the filter removes only the exact value `-1`. -/
theorem community_missing_counterexample :
    nodeDetailCommunity none = "undefined" ∧
    nodeDetailCommunity none ≠ "N/A" ∧
    none ∈ communitiesOf [{ nid := 0, community := none }] := by
  refine ⟨rfl, by decide, ?_⟩
  show none ∈ communitiesOf [{ nid := 0, community := none }]
  decide

/-- C4 amended: every node carries exactly one community id under the
spec-modelled total assignment; the graph view renders a community of
`-1` or a missing one in the sentinel gray; the exact value `-1` is
excluded from the community palette and shown as `N/A` in the node
detail view; any other community value — a missing one included — is
displayed as is. -/
theorem community_partition_and_sentinel (nodes : List GNode) (c : Option Int)
    (a : Nat → Int) (v : Nat) :
    (∃ k : Int, communityAssignment a v = k ∧
      ∀ k' : Int, communityAssignment a v = k' → k' = k) ∧
    ((c = some (-1) ∨ c = none) → nodeBackgroundColor nodes c = GRAY) ∧
    some (-1) ∉ communitiesOf nodes ∧
    nodeDetailCommunity (some (-1)) = "N/A" ∧
    (c ≠ some (-1) → nodeDetailCommunity c = jsDisplay c) := by
  refine ⟨⟨a v, rfl, fun k' hk' => hk'.symm⟩, fun hc => ?_, ?_, ?_, fun hc => ?_⟩
  · unfold nodeBackgroundColor
    rw [if_pos hc]
  · intro hmem
    unfold communitiesOf at hmem
    rcases List.mem_filter.mp hmem with ⟨-, hdec⟩
    simp at hdec
  · unfold nodeDetailCommunity
    rw [if_neg (by simp)]
  · unfold nodeDetailCommunity
    rw [if_pos hc]

/-- Concrete instantiation of `community_partition_and_sentinel`. -/
theorem community_partition_and_sentinel_spot :
    nodeBackgroundColor
        [{ nid := 0, community := some (-1) }, { nid := 1, community := some 2 }]
        (some (-1)) = GRAY ∧
    some (-1) ∉
      communitiesOf
        [{ nid := 0, community := some (-1) }, { nid := 1, community := some 2 }] ∧
    nodeDetailCommunity (some 2) = jsDisplay (some 2) := by
  have h := community_partition_and_sentinel
    [{ nid := 0, community := some (-1) }, { nid := 1, community := some 2 }]
    (some (-1)) (fun _ => 0) 0
  have h2 := community_partition_and_sentinel
    [{ nid := 0, community := some (-1) }, { nid := 1, community := some 2 }]
    (some 2) (fun _ => 0) 0
  exact ⟨h.2.1 (Or.inl rfl), h.2.2.1, h2.2.2.2.2 (by decide)⟩

/-- Neighbors of a node along any edge type. -/
def neighbors (g : Graph) (v : Nat) : List Nat :=
  (g.edges.filter (fun e => e.source == v || e.target == v)).map
    (fun e => if e.source = v then e.target else e.source)

/-- One breadth step: a set of nodes together with all their neighbors. -/
def expandOnce (g : Graph) (s : List Nat) : List Nat :=
  (s ++ s.flatMap (neighbors g)).dedup

/-- Nodes within distance `k` of `u`. -/
def ball (g : Graph) (u : Nat) : Nat → List Nat
  | 0 => [u]
  | k + 1 => expandOnce g (ball g u k)

/-- Decidable connectivity: every node reaches every node within
`n` steps (paths in a graph on `n` nodes have fewer than `n` edges). -/
def connectedB (g : Graph) : Bool :=
  g.nodes.all (fun u => g.nodes.all (fun v => (ball g u g.nodes.length).contains v))

/-- Shortest-path distance as the least radius whose ball captures the
target, `none` when unreachable within `n` steps. -/
def distB (g : Graph) (u v : Nat) : Option Nat :=
  (List.range (g.nodes.length + 1)).find? (fun k => (ball g u k).contains v)

/-- Modelled from the spec: the Metrics Engine (backend, absent from src)
reports the global diameter — the longest finite shortest path — as
undefined (`none`) when the graph is disconnected, rather than raising. -/
def diameter (g : Graph) : Option Nat :=
  if connectedB g then
    some ((g.nodes.flatMap (fun u => g.nodes.map (fun v => (distB g u v).getD 0))).foldl
      max 0)
  else none

/-- Shallow embedding of the diameter card in `Metrics`:
`m.diameter ?? 'N/A'` — the JavaScript null-coalescing operator replaces
only null/undefined by `N/A`, so a present value of `0` renders as `0`. -/
def diameterDisplay : Option Nat → String
  | none => "N/A"
  | some d => toString d

/-- C5: on a disconnected graph the global diameter is reported as
undefined (`none`) instead of an error, the metrics page renders that
absent value as `N/A`, and a present diameter of `0` still renders as
`0` (null-coalescing, not falsy, check). -/
theorem diameter_disconnected_renders_na (g : Graph) :
    (connectedB g = false → diameter g = none) ∧
    diameterDisplay none = "N/A" ∧
    diameterDisplay (some 0) = "0" := by
  refine ⟨fun hg => ?_, rfl, rfl⟩
  unfold diameter
  rw [hg]
  rfl

/-- Concrete instantiation of `diameter_disconnected_renders_na` at the
two-node edgeless (hence disconnected) graph. -/
theorem diameter_disconnected_renders_na_spot :
    connectedB { nodes := [0, 1], edges := [] } = false ∧
    diameter { nodes := [0, 1], edges := [] } = none ∧
    diameterDisplay (diameter { nodes := [0, 1], edges := [] }) = "N/A" := by
  have hc : connectedB { nodes := [0, 1], edges := [] } = false := by decide
  have h := (diameter_disconnected_renders_na { nodes := [0, 1], edges := [] }).1 hc
  exact ⟨hc, h, by rw [h]; exact (diameter_disconnected_renders_na
    { nodes := [0, 1], edges := [] }).2.1⟩

/-- One entry of the `severityConfig` lookup table in `Insights`: the
container and badge class strings. -/
structure SeverityStyle where
  container : String
  badge : String
deriving DecidableEq, Repr

/-- The `normal` tier entry of `severityConfig`. -/
def normalStyle : SeverityStyle :=
  { container := "border-green-500 bg-green-50", badge := "bg-green-100 text-green-700" }

/-- Shallow embedding of the `severityConfig` object in `Insights`:
a lookup keyed by the four severity tiers, returning `none` (JavaScript
`undefined`) for any other key. -/
def severityConfig (s : String) : Option SeverityStyle :=
  if s = "critical" then
    some { container := "border-red-500 bg-red-50", badge := "bg-red-100 text-red-700" }
  else if s = "high" then
    some { container := "border-orange-500 bg-orange-50",
           badge := "bg-orange-100 text-orange-700" }
  else if s = "elevated" then
    some { container := "border-yellow-500 bg-yellow-50",
           badge := "bg-yellow-100 text-yellow-700" }
  else if s = "normal" then some normalStyle
  else none

/-- Shallow embedding of
`severityConfig[alert.severity] || severityConfig.normal` in the alert
center of `Insights`. -/
def styleFor (sev : String) : SeverityStyle := (severityConfig sev).getD normalStyle

/-- The four fixed severity tiers of the alert synthesizer. -/
def severityTiers : List String := ["critical", "high", "elevated", "normal"]

/-- Modelled from the spec: the Insight and Alert Synthesizer (backend,
absent from src) maps the composite score into the four severity tiers
via fixed thresholds; the spec does not pin the threshold constants, so
representative values are used. -/
def severityTier (score : ℚ) : String :=
  if 3/4 ≤ score then "critical"
  else if 1/2 ≤ score then "high"
  else if 1/4 ≤ score then "elevated"
  else "normal"

/-- Modelled from the spec: the alerts summary object
`{average_alert_score, critical_alerts, high_alerts, elevated_alerts}`. -/
structure AlertsSummary where
  average_alert_score : ℚ
  critical_alerts : Nat
  high_alerts : Nat
  elevated_alerts : Nat
deriving DecidableEq, Repr

/-- Modelled from the spec: the summary aggregates the per-alert composite
scores into an average and per-tier counts. -/
def mkAlertsSummary (scores : List ℚ) : AlertsSummary :=
  { average_alert_score :=
      if scores.length = 0 then 0 else scores.sum / (scores.length : ℚ),
    critical_alerts := (scores.filter (fun q => decide (severityTier q = "critical"))).length,
    high_alerts := (scores.filter (fun q => decide (severityTier q = "high"))).length,
    elevated_alerts := (scores.filter (fun q => decide (severityTier q = "elevated"))).length }

/-- C6: every synthesized severity is one of the four fixed tiers, the
summary counts per tier over the alert scores, and in the alert center
the styling chosen for an alert is the entry keyed by its severity, with
any severity outside the four tiers falling back to the `normal` tier
styling. -/
theorem alert_severity_tiers (score : ℚ) (sev : String) (scores : List ℚ) :
    severityTier score ∈ severityTiers ∧
    (mkAlertsSummary scores).critical_alerts =
      (scores.filter (fun q => decide (severityTier q = "critical"))).length ∧
    (sev ∈ severityTiers → severityConfig sev = some (styleFor sev)) ∧
    (sev ∉ severityTiers → styleFor sev = normalStyle) := by
  refine ⟨?_, rfl, fun hmem => ?_, fun hmem => ?_⟩
  · unfold severityTier severityTiers
    split
    · simp
    · split
      · simp
      · split <;> simp
  · have hcases : sev = "critical" ∨ sev = "high" ∨ sev = "elevated" ∨ sev = "normal" := by
      simpa [severityTiers] using hmem
    unfold styleFor
    rcases hcases with h | h | h | h <;> rw [h] <;> rfl
  · have hcases : ¬(sev = "critical" ∨ sev = "high" ∨ sev = "elevated" ∨ sev = "normal") := by
      simpa [severityTiers] using hmem
    push_neg at hcases
    unfold styleFor severityConfig
    rw [if_neg hcases.1, if_neg hcases.2.1, if_neg hcases.2.2.1, if_neg hcases.2.2.2]
    rfl

/-- Concrete instantiation of `alert_severity_tiers`: the keyed styling
for `critical` and the fallback for an out-of-tier severity string. -/
theorem alert_severity_tiers_spot :
    severityConfig "critical" = some (styleFor "critical") ∧
    styleFor "urgent" = normalStyle := by
  exact ⟨(alert_severity_tiers 0 "critical" []).2.2.1 (by decide),
         (alert_severity_tiers 0 "urgent" []).2.2.2 (by decide)⟩

/-- One bucket of the timeline: bucket key and the disaster and
non-disaster counts. -/
structure TimelinePoint where
  timestamp : Nat
  disaster : Nat
  non_disaster : Nat
deriving DecidableEq, Repr

/-- The `/timeline` result the Insights page reads: the bucket list and
the `has_real_timestamp` flag, which may be absent from the JSON. -/
structure TimelineData where
  timeline : List TimelinePoint
  has_real_timestamp : Option Bool
deriving DecidableEq, Repr

/-- JavaScript truthiness of a possibly-missing boolean field: only a
present `true` is truthy. -/
def jsTruthy : Option Bool → Bool
  | some true => true
  | _ => false

/-- The caption shown over the temporal trendline when real timestamps
were detected. -/
def REAL_CAPTION : String := "Actual timestamps detected; trends grouped daily."

/-- The caption shown over the temporal trendline for a synthetic
timeline. -/
def SYNTH_CAPTION : String :=
  "No timestamp column found—synthetic timeline generated for pattern exploration."

/-- Shallow embedding of the temporal-trends section of `Insights`: the
section renders only when `timelinePoints.length > 0` (with
`timelinePoints = timelineData?.timeline || []`), and its caption is the
ternary on the truthiness of `timelineData?.has_real_timestamp`. -/
def timelineCaption (td : Option TimelineData) : Option String :=
  if 0 < ((td.map (·.timeline)).getD []).length then
    some (if jsTruthy (td.bind (·.has_real_timestamp)) then REAL_CAPTION
          else SYNTH_CAPTION)
  else none

/-- Modelled from the spec: the timeline object of time-bucketed
disaster/non-disaster counts (backend, absent from src): daily bucketing
by the records' timestamps when any are present, synthetic (index-based)
bucketing otherwise, the choice flagged in `has_real_timestamp`. -/
def timelineOf (rs : Dataset) : TimelineData :=
  if rs.any (fun r => r.timestamp.isSome) then
    { timeline := ((rs.filterMap (·.timestamp)).dedup).map (fun k =>
        { timestamp := k,
          disaster := (rs.filter (fun r => r.timestamp == some k && r.target)).length,
          non_disaster :=
            (rs.filter (fun r => r.timestamp == some k && !r.target)).length }),
      has_real_timestamp := some true }
  else
    { timeline := rs.enum.map (fun p =>
        { timestamp := p.1,
          disaster := if p.2.target then 1 else 0,
          non_disaster := if p.2.target then 0 else 1 }),
      has_real_timestamp := some false }

lemma timelineOf_ne_nil (rs : Dataset) (hrs : rs ≠ []) :
    (timelineOf rs).timeline ≠ [] := by
  unfold timelineOf
  by_cases hhr : (rs.any (fun r => r.timestamp.isSome)) = true
  · rw [if_pos hhr]
    simp only [ne_eq, List.map_eq_nil_iff]
    rcases List.any_eq_true.mp hhr with ⟨r, hr, hsome⟩
    rcases Option.isSome_iff_exists.mp (by simpa using hsome) with ⟨t, ht⟩
    have hmem : t ∈ rs.filterMap (·.timestamp) :=
      List.mem_filterMap.mpr ⟨r, hr, by rw [ht]⟩
    exact List.ne_nil_of_mem (List.mem_dedup.mpr hmem)
  · rw [if_neg hhr]
    simp only [ne_eq, List.map_eq_nil_iff, List.enum_eq_nil]
    exact hrs

/-- C7: for every timeline result carried by a non-empty bucket list, the
insights page shows the synthetic-timeline caption exactly when the
`has_real_timestamp` field is falsy and the real-timestamps caption
exactly when it is truthy; and the spec-modelled timeline of a non-empty
dataset always has a non-empty bucket list. -/
theorem timeline_synthetic_flagged (td : TimelineData) (rs : Dataset)
    (hne : td.timeline ≠ []) (hrs : rs ≠ []) :
    (timelineCaption (some td) = some SYNTH_CAPTION ↔
      jsTruthy td.has_real_timestamp = false) ∧
    (timelineCaption (some td) = some REAL_CAPTION ↔
      jsTruthy td.has_real_timestamp = true) ∧
    (timelineOf rs).timeline ≠ [] := by
  have hlen : 0 < td.timeline.length := List.length_pos.mpr hne
  have hcap : timelineCaption (some td) =
      some (if jsTruthy td.has_real_timestamp then REAL_CAPTION else SYNTH_CAPTION) := by
    unfold timelineCaption
    simp only [Option.map_some', Option.getD_some, Option.some_bind]
    rw [if_pos hlen]
  have hdiff : ¬(SYNTH_CAPTION = REAL_CAPTION) := by decide
  refine ⟨?_, ?_, timelineOf_ne_nil rs hrs⟩
  · rw [hcap]
    cases hjt : jsTruthy td.has_real_timestamp
    · simp
    · simp only [if_pos rfl, Option.some.injEq]
      exact iff_of_false (fun h => hdiff h.symm) (by simp)
  · rw [hcap]
    cases hjt : jsTruthy td.has_real_timestamp
    · simp only [Bool.false_eq_true, if_neg, Option.some.injEq]
      exact iff_of_false hdiff (by simp)
    · simp

/-- Concrete instantiation of `timeline_synthetic_flagged` at a
one-bucket synthetic timeline and a one-record dataset. -/
theorem timeline_synthetic_flagged_spot :
    (timelineCaption
        (some { timeline := [{ timestamp := 0, disaster := 1, non_disaster := 0 }],
                has_real_timestamp := some false }) = some SYNTH_CAPTION ↔
      jsTruthy (some false) = false) ∧
    (timelineOf [{ rid := 0, keyword := "flood", location := "", text := "w",
                   target := true, timestamp := none }]).timeline ≠ [] := by
  have h := timeline_synthetic_flagged
    { timeline := [{ timestamp := 0, disaster := 1, non_disaster := 0 }],
      has_real_timestamp := some false }
    [{ rid := 0, keyword := "flood", location := "", text := "w",
       target := true, timestamp := none }]
    (by decide) (by decide)
  exact ⟨h.1, h.2.2⟩

end CrisisNet
